import Mathlib

/-!
Verification of the execution-client failover proxy of the smartnode
repository (`services` package: `ExecutionClientManager`, `runFunction`,
`CheckStatus`, `checkClientStatus`, `isDisconnected`).

The Go code is shallowly embedded: network interactions are passed in as
the outcomes the remote clients would return, and the mutable manager
state (`primaryReady`, `fallbackReady`, ...) is threaded explicitly.
-/

set_option maxHeartbeats 1000000

namespace Smartnode

/-- Substring-free prefix test on character lists: `hasPre s pat` holds when
`pat` is an initial segment of `s`. Used to embed Go `strings.Contains`. -/
def hasPre : List Char → List Char → Bool
  | _, [] => true
  | [], _ :: _ => false
  | c :: s, d :: p => (c == d) && hasPre s p

/-- `containsSub s pat` embeds Go `strings.Contains(s, pat)`: `pat` occurs as a
contiguous substring of `s`. -/
def containsSub : List Char → List Char → Bool
  | [], pat => hasPre [] pat
  | c :: rest, pat => hasPre (c :: rest) pat || containsSub rest pat

/-- Embedding of `isDisconnected` (part_000 lines 807-809):
`strings.Contains(err.Error(), "dial tcp")`. -/
def isDisconnected (err : String) : Bool :=
  containsSub err.data "dial tcp".data

/-- Embedding of `api.ExecutionClientStatus` (fields used by this package).
`syncProgress` is the float64 field modelled over `ℚ`. Defaults are the Go
zero values. -/
structure ExecutionClientStatus where
  isWorking : Bool := false
  isSynced : Bool := false
  syncProgress : ℚ := 0
  error : String := ""
deriving Repr, DecidableEq

/-- Embedding of `ethereum.SyncProgress` (the fields `checkClientStatus`
reads). -/
structure SyncProgressData where
  currentBlock : Nat
  highestBlock : Nat
deriving Repr, DecidableEq

/-- Model of the IEEE float64 values that `float64(current)/float64(highest)`
can take for natural-number inputs: NaN (from 0/0), positive infinity (from
x/0 with x > 0), or a finite nonnegative rational (rounding abstracted as
exact division; rounding a quotient cannot move it out of `[0,1]` past the
representable bound 1, so the claims proved below are insensitive to it). -/
inductive FloatVal where
  | nan
  | posInf
  | val (q : ℚ)
deriving Repr, DecidableEq

/-- float64 division of two naturals under the `FloatVal` model. -/
def floatDiv (a b : Nat) : FloatVal :=
  if b = 0 then (if a = 0 then FloatVal.nan else FloatVal.posInf)
  else FloatVal.val ((a : ℚ) / (b : ℚ))

/-- Embedding of the progress computation of `checkClientStatus`
(part_000 lines 749-755): `SyncProgress = float64(cur)/float64(high)`;
`if SyncProgress > 1 { SyncProgress = 1 }` (true for +inf, false for NaN);
`if IsNaN(SyncProgress) { SyncProgress = 0 }`. -/
def syncProgressValue (current highest : Nat) : ℚ :=
  match floatDiv current highest with
  | FloatVal.nan => 0
  | FloatVal.posInf => 1
  | FloatVal.val q => if 1 < q then 1 else q

/-- The stale-block warning of `checkClientStatus` (line 734). `time.Since`
formatting is abstracted to the raw timestamp and punctuation is simplified;
only its non-emptiness and distinctness matter to the development. -/
def staleBlockMessage (blockTime : Nat) : String :=
  "Client claims to have finished syncing, but its last block was from " ++
    toString blockTime ++ " ago. It likely has too few peers"

/-- Embedding of `checkClientStatus` (part_000 lines 710-760). The two network
probes are passed in as the outcomes the client would return:
`syncProgressRes` is `client.SyncProgress` (`none` = no sync in progress) and
`staleRes` is `IsSyncWithinThreshold` (defined outside this file; yields
`(isUpToDate, blockTime)`). -/
def checkClientStatus (syncProgressRes : Except String (Option SyncProgressData))
    (staleRes : Except String (Bool × Nat)) : ExecutionClientStatus :=
  match syncProgressRes with
  | Except.error e =>
      { isWorking := false, isSynced := false, syncProgress := 0,
        error := "Sync progress check failed with [" ++ e ++ "]" }
  | Except.ok none =>
      match staleRes with
      | Except.error e =>
          { isWorking := false, isSynced := false, syncProgress := 0,
            error := "Error checking if client sync progress is up to date: [" ++ e ++ "]" }
      | Except.ok (isUpToDate, blockTime) =>
          if isUpToDate then
            { isWorking := true, isSynced := true, syncProgress := 0, error := "" }
          else
            { isWorking := true, isSynced := false, syncProgress := 0,
              error := staleBlockMessage blockTime }
  | Except.ok (some progress) =>
      { isWorking := true, isSynced := false,
        syncProgress := syncProgressValue progress.currentBlock progress.highestBlock,
        error := "" }

/-- Embedding of the `ExecutionClientManager` state (part_000 lines 381-390):
the two readiness flags, the skip-live-check mode, and whether a fallback
client is configured (`fallbackEc != nil`). URLs, client handles and the
logger carry no dispatch-relevant state and are omitted. -/
structure ExecutionClientManager where
  primaryReady : Bool
  fallbackReady : Bool
  ignoreSyncCheck : Bool
  hasFallback : Bool
deriving Repr, DecidableEq

/-- Identifies which underlying client a call was dispatched to. -/
inductive ClientId where
  | primary
  | fallback
deriving Repr, DecidableEq

/-- Outcome of one `runFunction` dispatch: the value or error returned to the
caller, the manager state after the call, and the sequence of client handles
actually invoked. -/
structure RunOutcome (α : Type) where
  result : Except String α
  finalState : ExecutionClientManager
  calls : List ClientId

/-- Embedding of `runFunction` (part_000 lines 763-804). The wrapped
`clientFunction` is represented by the outcomes it would produce on each
client (`onPrimary`, `onFallback`); the recursive retry of the source is kept
as recursion, decreasing because the recursive call happens only after
`primaryReady` is set to `false`. -/
def runFunction (p : ExecutionClientManager) (onPrimary onFallback : Except String α) :
    RunOutcome α :=
  if _hp : p.primaryReady then
    match onPrimary with
    | Except.ok result => { result := Except.ok result, finalState := p, calls := [ClientId.primary] }
    | Except.error err =>
        if isDisconnected err then
          let rest := runFunction { p with primaryReady := false } onPrimary onFallback
          { rest with calls := ClientId.primary :: rest.calls }
        else
          { result := Except.error err, finalState := p, calls := [ClientId.primary] }
  else if p.fallbackReady then
    match onFallback with
    | Except.ok result => { result := Except.ok result, finalState := p, calls := [ClientId.fallback] }
    | Except.error err =>
        if isDisconnected err then
          { result := Except.error "all execution clients failed",
            finalState := { p with fallbackReady := false }, calls := [ClientId.fallback] }
        else
          { result := Except.error err, finalState := p, calls := [ClientId.fallback] }
  else
    { result := Except.error "no execution clients were ready", finalState := p, calls := [] }
termination_by (if p.primaryReady then 1 else 0)
decreasing_by simp_all

/-- Embedding of `api.ExecutionClientManagerStatus` (fields used here). -/
structure ExecutionClientManagerStatus where
  fallbackEnabled : Bool
  primaryEcStatus : ExecutionClientStatus
  fallbackEcStatus : ExecutionClientStatus
deriving Repr, DecidableEq

/-- Embedding of `CheckStatus` (part_000 lines 676-707). The results the two
`checkClientStatus` probes would produce are supplied as `freshPrimary` and
`freshFallback`; the value is `(reported status, updated manager state,
clients actually probed)`. -/
def CheckStatus (p : ExecutionClientManager)
    (freshPrimary freshFallback : ExecutionClientStatus) :
    ExecutionClientManagerStatus × ExecutionClientManager × List ClientId :=
  let fallbackEnabled := p.hasFallback
  if p.ignoreSyncCheck then
    ({ fallbackEnabled := fallbackEnabled,
       primaryEcStatus := { isWorking := p.primaryReady, isSynced := p.primaryReady },
       fallbackEcStatus :=
         if fallbackEnabled then
           { isWorking := p.fallbackReady, isSynced := p.fallbackReady }
         else {} },
     p, [])
  else
    let primaryEcStatus := freshPrimary
    let fallbackEcStatus := if fallbackEnabled then freshFallback else {}
    ({ fallbackEnabled := fallbackEnabled,
       primaryEcStatus := primaryEcStatus,
       fallbackEcStatus := fallbackEcStatus },
     { p with
       primaryReady := primaryEcStatus.isWorking && primaryEcStatus.isSynced,
       fallbackReady := fallbackEnabled && (fallbackEcStatus.isWorking && fallbackEcStatus.isSynced) },
     ClientId.primary :: (if fallbackEnabled then [ClientId.fallback] else []))

/-! Helper lemmas about the substring test. -/

theorem hasPre_iff (s pat : List Char) : hasPre s pat = true ↔ ∃ suf, s = pat ++ suf := by
  induction pat generalizing s with
  | nil =>
    refine iff_of_true ?_ ⟨s, by simp⟩
    cases s <;> rfl
  | cons d p ih =>
    cases s with
    | nil => simp [hasPre]
    | cons c s2 =>
      simp only [hasPre, Bool.and_eq_true, beq_iff_eq, ih, List.cons_append, List.cons.injEq]
      constructor
      · rintro ⟨rfl, suf, rfl⟩
        exact ⟨suf, rfl, rfl⟩
      · rintro ⟨suf, rfl, rfl⟩
        exact ⟨rfl, suf, rfl⟩

theorem containsSub_iff (s pat : List Char) :
    containsSub s pat = true ↔ ∃ pre suf, s = pre ++ (pat ++ suf) := by
  induction s with
  | nil =>
    simp only [containsSub, hasPre_iff]
    constructor
    · rintro ⟨suf, h⟩
      exact ⟨[], suf, by simpa using h⟩
    · rintro ⟨pre, suf, h⟩
      rcases List.append_eq_nil.mp h.symm with ⟨rfl, h2⟩
      exact ⟨suf, by simpa using h⟩
  | cons c rest ih =>
    simp only [containsSub, Bool.or_eq_true, hasPre_iff, ih]
    constructor
    · rintro (⟨suf, h⟩ | ⟨pre, suf, h⟩)
      · exact ⟨[], suf, by simpa using h⟩
      · exact ⟨c :: pre, suf, by simp [h]⟩
    · rintro ⟨pre, suf, h⟩
      cases pre with
      | nil => exact Or.inl ⟨suf, by simpa using h⟩
      | cons c2 pre2 =>
        simp only [List.cons_append, List.cons.injEq] at h
        exact Or.inr ⟨pre2, suf, h.2⟩

theorem isDisconnected_iff (e : String) :
    isDisconnected e = true ↔ ∃ pre suf, e.data = pre ++ ("dial tcp".data ++ suf) :=
  containsSub_iff e.data "dial tcp".data

/-! Claim theorems. -/

/-- C3: if both readiness flags are false, dispatch fails immediately with the
exhaustion error "no execution clients were ready", no handle function is
invoked, and the manager state (hence both readiness flags) is unchanged. -/
theorem runFunction_no_clients_ready {α : Type}
    (p : ExecutionClientManager) (onP onF : Except String α)
    (hp : p.primaryReady = false) (hf : p.fallbackReady = false) :
    (runFunction p onP onF).result = Except.error "no execution clients were ready" ∧
    (runFunction p onP onF).calls = [] ∧
    (runFunction p onP onF).finalState = p := by
  refine ⟨?_, ?_, ?_⟩ <;> simp [runFunction.eq_def, hp, hf]

/-- C3 witness: concrete instance with both flags false. -/
theorem runFunction_no_clients_ready_witness :
    (runFunction ⟨false, false, false, true⟩ (Except.ok 1) (Except.ok (2 : Nat))).result
        = Except.error "no execution clients were ready" ∧
    (runFunction ⟨false, false, false, true⟩ (Except.ok 1) (Except.ok (2 : Nat))).calls = [] := by
  have h := runFunction_no_clients_ready ⟨false, false, false, true⟩
    (Except.ok 1) (Except.ok (2 : Nat)) rfl rfl
  exact ⟨h.1, h.2.1⟩

/-- C4: with primary not ready and fallback ready, a transport error on the
fallback call clears the fallback readiness flag, returns the error
"all execution clients failed", and performs exactly one handle invocation
(the fallback) with no further retry. -/
theorem runFunction_fallback_transport_error {α : Type}
    (p : ExecutionClientManager) (e : String) (onP : Except String α)
    (hp : p.primaryReady = false) (hf : p.fallbackReady = true)
    (hd : isDisconnected e = true) :
    (runFunction p onP (Except.error e)).result = Except.error "all execution clients failed" ∧
    (runFunction p onP (Except.error e)).finalState.fallbackReady = false ∧
    (runFunction p onP (Except.error e)).finalState.primaryReady = p.primaryReady ∧
    (runFunction p onP (Except.error e)).calls = [ClientId.fallback] := by
  refine ⟨?_, ?_, ?_, ?_⟩ <;> simp [runFunction.eq_def, hp, hf, hd]

/-- C4 witness: concrete fallback-side transport failure. -/
theorem runFunction_fallback_transport_error_witness :
    (runFunction ⟨false, true, false, true⟩ (Except.ok (1 : Nat))
        (Except.error "dial tcp 127.0.0.1:8545: connect: connection refused")).result
      = Except.error "all execution clients failed" ∧
    (runFunction ⟨false, true, false, true⟩ (Except.ok (1 : Nat))
        (Except.error "dial tcp 127.0.0.1:8545: connect: connection refused")).finalState.fallbackReady
      = false := by
  have h := runFunction_fallback_transport_error ⟨false, true, false, true⟩
    "dial tcp 127.0.0.1:8545: connect: connection refused" (Except.ok (1 : Nat))
    rfl rfl (by decide)
  exact ⟨h.1, h.2.1⟩

/-- C5: dispatch never promotes a readiness flag: each flag can only go from
true to false (or stay) across any `runFunction` call, for every starting
state and every pair of call outcomes. -/
theorem runFunction_readiness_monotone {α : Type}
    (p : ExecutionClientManager) (onP onF : Except String α) :
    ((runFunction p onP onF).finalState.primaryReady = true → p.primaryReady = true) ∧
    ((runFunction p onP onF).finalState.fallbackReady = true → p.fallbackReady = true) := by
  obtain ⟨pr, fr, ig, hfb⟩ := p
  cases pr <;> cases fr <;> cases onP <;> cases onF <;>
    constructor <;>
    simp [runFunction] <;>
    first
    | rfl
    | (rename_i e _; by_cases hd : isDisconnected e <;> simp [hd])
    | (rename_i e; by_cases hd : isDisconnected e <;> simp [hd])

/-- C5 witness: instantiation at a concrete state and call outcome (primary
demoted by a transport error). -/
theorem runFunction_readiness_monotone_witness :
    ((runFunction ⟨true, false, false, true⟩ (Except.error "dial tcp: x")
        (Except.ok (1 : Nat))).finalState.primaryReady = true →
      (⟨true, false, false, true⟩ : ExecutionClientManager).primaryReady = true) :=
  (runFunction_readiness_monotone ⟨true, false, false, true⟩
    (Except.error "dial tcp: x") (Except.ok (1 : Nat))).1

/-- C2: an application-level (non-transport) error from the selected handle is
returned to the caller unchanged, the manager state (both readiness flags) is
untouched, and no failover attempt is made: if the primary was selected only
the primary is invoked, and if the fallback was selected only the fallback is
invoked. -/
theorem runFunction_application_error_unchanged {α : Type}
    (p : ExecutionClientManager) (e : String) (onP onF : Except String α)
    (hnd : isDisconnected e = false) :
    (p.primaryReady = true →
      (runFunction p (Except.error e) onF).result = Except.error e ∧
      (runFunction p (Except.error e) onF).finalState = p ∧
      (runFunction p (Except.error e) onF).calls = [ClientId.primary]) ∧
    (p.primaryReady = false → p.fallbackReady = true →
      (runFunction p onP (Except.error e)).result = Except.error e ∧
      (runFunction p onP (Except.error e)).finalState = p ∧
      (runFunction p onP (Except.error e)).calls = [ClientId.fallback]) := by
  constructor
  · intro hp
    refine ⟨?_, ?_, ?_⟩ <;> simp [runFunction.eq_def, hp, hnd]
  · intro hp hf
    refine ⟨?_, ?_, ?_⟩ <;> simp [runFunction.eq_def, hp, hf, hnd]

/-- C2 witness: a reverted-execution error on the primary is passed through
with the state intact. -/
theorem runFunction_application_error_unchanged_witness :
    (runFunction ⟨true, true, false, true⟩ (Except.error "execution reverted")
        (Except.ok (1 : Nat))).result = Except.error "execution reverted" ∧
    (runFunction ⟨true, true, false, true⟩ (Except.error "execution reverted")
        (Except.ok (1 : Nat))).finalState = ⟨true, true, false, true⟩ := by
  have h := (runFunction_application_error_unchanged ⟨true, true, false, true⟩
    "execution reverted" (Except.ok (1 : Nat)) (Except.ok (1 : Nat)) (by decide)).1 rfl
  exact ⟨h.1, h.2.1⟩

/-- C1 counterexample: with primary ready, fallback ready, and transport errors
on both clients, the dispatch does retry exactly once on the fallback, but the
value returned to the caller is the wrapped error "all execution clients
failed", which differs from the fallback call's own result — refuting the
claim that the returned value always equals the fallback's result. -/
theorem runFunction_failover_wrapped_error_cex :
    (runFunction ⟨true, true, false, true⟩ (Except.error "dial tcp: primary refused")
        (Except.error "dial tcp: fallback refused") : RunOutcome Nat).calls
      = [ClientId.primary, ClientId.fallback] ∧
    (runFunction ⟨true, true, false, true⟩ (Except.error "dial tcp: primary refused")
        (Except.error "dial tcp: fallback refused") : RunOutcome Nat).result
      = Except.error "all execution clients failed" ∧
    (Except.error "all execution clients failed" : Except String Nat)
      ≠ Except.error "dial tcp: fallback refused" := by
  have h1 : isDisconnected "dial tcp: primary refused" = true := by decide
  have h2 : isDisconnected "dial tcp: fallback refused" = true := by decide
  refine ⟨?_, ?_, ?_⟩
  · simp [runFunction, h1, h2]
  · simp [runFunction, h1, h2]
  · simp only [ne_eq, Except.error.injEq]
    decide

/-- C1 (amended): with primary ready and fallback ready, a transport error on
the primary demotes the primary, and the operation is retried exactly once on
the fallback (exactly one failover hop: the call sequence is precisely
primary-then-fallback). The value returned is the fallback call's result when
that call succeeds or fails with a non-transport error; if the fallback call
fails with a transport error too, the fallback is demoted as well and the
wrapped error "all execution clients failed" is returned. -/
theorem runFunction_primary_transport_failover {α : Type}
    (p : ExecutionClientManager) (e : String) (onF : Except String α)
    (hp : p.primaryReady = true) (hf : p.fallbackReady = true)
    (hd : isDisconnected e = true) :
    (runFunction p (Except.error e) onF).calls = [ClientId.primary, ClientId.fallback] ∧
    (runFunction p (Except.error e) onF).finalState.primaryReady = false ∧
    (∀ v, onF = Except.ok v → (runFunction p (Except.error e) onF).result = Except.ok v) ∧
    (∀ e2, onF = Except.error e2 → isDisconnected e2 = false →
      (runFunction p (Except.error e) onF).result = Except.error e2 ∧
      (runFunction p (Except.error e) onF).finalState.fallbackReady = true) ∧
    (∀ e2, onF = Except.error e2 → isDisconnected e2 = true →
      (runFunction p (Except.error e) onF).result = Except.error "all execution clients failed" ∧
      (runFunction p (Except.error e) onF).finalState.fallbackReady = false) := by
  cases onF with
  | ok v =>
    refine ⟨?_, ?_, ?_, ?_, ?_⟩
    · simp [runFunction.eq_def, hp, hf, hd]
    · simp [runFunction.eq_def, hp, hf, hd]
    · intro w hw
      injection hw with hw
      subst hw
      simp [runFunction.eq_def, hp, hf, hd]
    · intro e2 he2
      exact absurd he2 (by simp)
    · intro e2 he2
      exact absurd he2 (by simp)
  | error e2 =>
    by_cases hd2 : isDisconnected e2 = true
    · refine ⟨?_, ?_, ?_, ?_, ?_⟩
      · simp [runFunction.eq_def, hp, hf, hd, hd2]
      · simp [runFunction.eq_def, hp, hf, hd, hd2]
      · intro v hv
        exact absurd hv (by simp)
      · intro e3 he3 hnd
        injection he3 with he3
        subst he3
        exact absurd hd2 (by simp [hnd])
      · intro e3 he3 _
        injection he3 with he3
        subst he3
        refine ⟨?_, ?_⟩ <;> simp [runFunction.eq_def, hp, hf, hd, hd2]
    · have hd2f : isDisconnected e2 = false := by simpa using hd2
      refine ⟨?_, ?_, ?_, ?_, ?_⟩
      · simp [runFunction.eq_def, hp, hf, hd, hd2f]
      · simp [runFunction.eq_def, hp, hf, hd, hd2f]
      · intro v hv
        exact absurd hv (by simp)
      · intro e3 he3 _
        injection he3 with he3
        subst he3
        refine ⟨?_, ?_⟩ <;> simp [runFunction.eq_def, hp, hf, hd, hd2f]
      · intro e3 he3 hnd
        injection he3 with he3
        subst he3
        exact absurd hnd (by simp [hd2f])

/-- C1 witness: Scenario C of the spec — primary dial failure, fallback
returns 12345; the dispatched call returns 12345 after exactly one hop. -/
theorem runFunction_primary_transport_failover_witness :
    (runFunction ⟨true, true, false, true⟩ (Except.error "dial tcp: down")
        (Except.ok (12345 : Nat))).calls = [ClientId.primary, ClientId.fallback] ∧
    (runFunction ⟨true, true, false, true⟩ (Except.error "dial tcp: down")
        (Except.ok (12345 : Nat))).result = Except.ok 12345 ∧
    (runFunction ⟨true, true, false, true⟩ (Except.error "dial tcp: down")
        (Except.ok (12345 : Nat))).finalState.primaryReady = false := by
  have h := runFunction_primary_transport_failover ⟨true, true, false, true⟩
    "dial tcp: down" (Except.ok (12345 : Nat)) rfl rfl (by decide)
  exact ⟨h.1, h.2.2.1 12345 rfl, h.2.1⟩

/-- C10: an error raised by the selected client is classified as a transport
error exactly when its message contains the substring "dial tcp". On a ready
primary: demotion happens iff the message contains "dial tcp"; the fallback is
invoked iff additionally the fallback flag is true; and when the substring is
absent the error is returned unchanged with the whole state untouched. On a
ready fallback (primary demoted): fallback demotion happens iff the message
contains "dial tcp". -/
theorem runFunction_transport_classification {α : Type}
    (p : ExecutionClientManager) (e : String) (onP onF : Except String α) :
    (p.primaryReady = true →
      ((runFunction p (Except.error e) onF).finalState.primaryReady = false ↔
        ∃ pre suf, e.data = pre ++ ("dial tcp".data ++ suf)) ∧
      (ClientId.fallback ∈ (runFunction p (Except.error e) onF).calls ↔
        (p.fallbackReady = true ∧ ∃ pre suf, e.data = pre ++ ("dial tcp".data ++ suf))) ∧
      ((¬ ∃ pre suf, e.data = pre ++ ("dial tcp".data ++ suf)) →
        (runFunction p (Except.error e) onF).result = Except.error e ∧
        (runFunction p (Except.error e) onF).finalState = p)) ∧
    (p.primaryReady = false → p.fallbackReady = true →
      ((runFunction p onP (Except.error e)).finalState.fallbackReady = false ↔
        ∃ pre suf, e.data = pre ++ ("dial tcp".data ++ suf))) := by
  have hiff := isDisconnected_iff e
  constructor
  · intro hp
    refine ⟨?_, ?_, ?_⟩
    · rw [← hiff]
      by_cases hd : isDisconnected e = true
      · simp only [hd, iff_true]
        cases hfr : p.fallbackReady with
        | false => simp [runFunction.eq_def, hp, hd, hfr]
        | true =>
          cases onF with
          | ok v => simp [runFunction.eq_def, hp, hd, hfr]
          | error e2 =>
            by_cases hd2 : isDisconnected e2 = true
            · simp [runFunction.eq_def, hp, hd, hfr, hd2]
            · simp [runFunction.eq_def, hp, hd, hfr, show isDisconnected e2 = false by simpa using hd2]
      · have hdf : isDisconnected e = false := by simpa using hd
        simp [runFunction.eq_def, hp, hdf]
    · rw [← hiff]
      by_cases hd : isDisconnected e = true
      · simp only [hd, and_true]
        cases hfr : p.fallbackReady with
        | false => simp [runFunction.eq_def, hp, hd, hfr]
        | true =>
          cases onF with
          | ok v => simp [runFunction.eq_def, hp, hd, hfr]
          | error e2 =>
            by_cases hd2 : isDisconnected e2 = true
            · simp [runFunction.eq_def, hp, hd, hfr, hd2]
            · simp [runFunction.eq_def, hp, hd, hfr, show isDisconnected e2 = false by simpa using hd2]
      · have hdf : isDisconnected e = false := by simpa using hd
        cases hfr : p.fallbackReady <;> simp [runFunction.eq_def, hp, hdf, hfr]
    · intro hne
      have hdf : isDisconnected e = false := by
        rcases hx : isDisconnected e with _ | _
        · rfl
        · exact absurd (hiff.mp hx) hne
      constructor <;> simp [runFunction.eq_def, hp, hdf]
  · intro hp hf
    rw [← hiff]
    by_cases hd : isDisconnected e = true
    · simp [runFunction.eq_def, hp, hf, hd]
    · have hdf : isDisconnected e = false := by simpa using hd
      simp [runFunction.eq_def, hp, hf, hdf]

/-- C10 witness: an error whose message embeds "dial tcp" in the middle
triggers demotion of a ready primary; the substring decomposition is given
explicitly. -/
theorem runFunction_transport_classification_witness :
    (runFunction ⟨true, true, false, true⟩
        (Except.error "Post http://x: dial tcp 10.0.0.1:8545: timeout")
        (Except.ok (3 : Nat))).finalState.primaryReady = false := by
  have h := (runFunction_transport_classification ⟨true, true, false, true⟩
    "Post http://x: dial tcp 10.0.0.1:8545: timeout"
    (Except.ok (3 : Nat)) (Except.ok (3 : Nat))).1 rfl
  exact h.1.mpr ⟨"Post http://x: ".data, " 10.0.0.1:8545: timeout".data, by decide⟩

theorem syncProgressValue_bounds (current highest : Nat) :
    0 ≤ syncProgressValue current highest ∧ syncProgressValue current highest ≤ 1 := by
  unfold syncProgressValue floatDiv
  by_cases hh : highest = 0
  · by_cases hc : current = 0 <;> simp [hh, hc]
  · simp only [hh, ite_false]
    by_cases hq : (1 : ℚ) < (current : ℚ) / (highest : ℚ)
    · simp [hq]
    · simp only [hq, ite_false]
      refine ⟨?_, le_of_not_lt hq⟩
      positivity

/-- C6: `CheckStatus` with skip-live-check off probes the primary and (when a
fallback is configured) the fallback, and overwrites the readiness flags with
`isWorking AND isSynced` of the fresh results (the fallback flag additionally
conjoined with fallback-configured); with skip-live-check on it probes
nothing, leaves the manager state unchanged, and reports status from the
stored flags. -/
theorem CheckStatus_refresh_spec (p : ExecutionClientManager)
    (freshPrimary freshFallback : ExecutionClientStatus) :
    (p.ignoreSyncCheck = false →
      (CheckStatus p freshPrimary freshFallback).2.1.primaryReady
          = (freshPrimary.isWorking && freshPrimary.isSynced) ∧
      (CheckStatus p freshPrimary freshFallback).2.1.fallbackReady
          = (p.hasFallback && (freshFallback.isWorking && freshFallback.isSynced)) ∧
      (CheckStatus p freshPrimary freshFallback).2.2
          = ClientId.primary :: (if p.hasFallback then [ClientId.fallback] else [])) ∧
    (p.ignoreSyncCheck = true →
      (CheckStatus p freshPrimary freshFallback).2.1 = p ∧
      (CheckStatus p freshPrimary freshFallback).2.2 = [] ∧
      (CheckStatus p freshPrimary freshFallback).1.primaryEcStatus.isWorking = p.primaryReady ∧
      (CheckStatus p freshPrimary freshFallback).1.primaryEcStatus.isSynced = p.primaryReady ∧
      (p.hasFallback = true →
        (CheckStatus p freshPrimary freshFallback).1.fallbackEcStatus.isWorking = p.fallbackReady ∧
        (CheckStatus p freshPrimary freshFallback).1.fallbackEcStatus.isSynced = p.fallbackReady)) := by
  constructor
  · intro hig
    by_cases hfb : p.hasFallback = true
    · refine ⟨?_, ?_, ?_⟩ <;> simp [CheckStatus, hig, hfb]
    · have hfbf : p.hasFallback = false := by simpa using hfb
      refine ⟨?_, ?_, ?_⟩ <;> simp [CheckStatus, hig, hfbf]
  · intro hig
    by_cases hfb : p.hasFallback = true
    · refine ⟨?_, ?_, ?_, ?_, ?_⟩ <;> simp [CheckStatus, hig, hfb]
    · have hfbf : p.hasFallback = false := by simpa using hfb
      refine ⟨?_, ?_, ?_, ?_, ?_⟩ <;> simp [CheckStatus, hig, hfbf]

/-- C6 witness: with skip-live-check off, a synced fresh primary result and an
unsynced fresh fallback result overwrite the flags accordingly, and both
clients are probed. -/
theorem CheckStatus_refresh_spec_witness :
    (CheckStatus ⟨false, false, false, true⟩ ⟨true, true, 0, ""⟩
        ⟨true, false, 0, ""⟩).2.1.primaryReady = true ∧
    (CheckStatus ⟨false, false, false, true⟩ ⟨true, true, 0, ""⟩
        ⟨true, false, 0, ""⟩).2.1.fallbackReady = false ∧
    (CheckStatus ⟨false, false, false, true⟩ ⟨true, true, 0, ""⟩
        ⟨true, false, 0, ""⟩).2.2 = [ClientId.primary, ClientId.fallback] := by
  have h := (CheckStatus_refresh_spec ⟨false, false, false, true⟩
    ⟨true, true, 0, ""⟩ ⟨true, false, 0, ""⟩).1 rfl
  exact ⟨h.1, by simpa using h.2.1, by simpa using h.2.2⟩

/-- C7: the progress value reported by the health monitor is always in
`[0,1]`; for an in-progress sync it is the value of the clamped division,
which for a nonzero highest block equals `min (current/highest) 1`; the
degenerate `0/0` case yields exactly `0` (the NaN branch), and `150/100`
clamps to `1`. -/
theorem checkClientStatus_progress_bounds
    (current highest : Nat) (spRes : Except String (Option SyncProgressData))
    (staleRes : Except String (Bool × Nat)) :
    (0 ≤ (checkClientStatus spRes staleRes).syncProgress ∧
      (checkClientStatus spRes staleRes).syncProgress ≤ 1) ∧
    (checkClientStatus (Except.ok (some ⟨current, highest⟩)) staleRes).syncProgress
        = syncProgressValue current highest ∧
    (0 < highest → syncProgressValue current highest
        = min ((current : ℚ) / (highest : ℚ)) 1) ∧
    syncProgressValue 0 0 = 0 ∧
    syncProgressValue 150 100 = 1 := by
  refine ⟨?_, ?_, ?_, ?_, ?_⟩
  · match spRes with
    | Except.error e => simp [checkClientStatus]
    | Except.ok none =>
      match staleRes with
      | Except.error e => simp [checkClientStatus]
      | Except.ok (u, bt) => cases u <;> simp [checkClientStatus]
    | Except.ok (some prog) =>
      simpa [checkClientStatus] using
        syncProgressValue_bounds prog.currentBlock prog.highestBlock
  · simp [checkClientStatus]
  · intro hpos
    have hh : highest ≠ 0 := Nat.pos_iff_ne_zero.mp hpos
    unfold syncProgressValue floatDiv
    simp only [hh, ite_false]
    by_cases hq : (1 : ℚ) < (current : ℚ) / (highest : ℚ)
    · simp [hq, min_eq_right (le_of_lt hq)]
    · simp [hq, min_eq_left (le_of_not_lt hq)]
  · norm_num [syncProgressValue, floatDiv]
  · norm_num [syncProgressValue, floatDiv]

/-- C7 witness: instantiation at `current = 150`, `highest = 100` with a
concrete in-progress sync report. -/
theorem checkClientStatus_progress_bounds_witness :
    (checkClientStatus (Except.ok (some ⟨150, 100⟩))
        (Except.ok (true, 0))).syncProgress = 1 ∧
    (0 : ℚ) ≤ (checkClientStatus (Except.ok (some ⟨150, 100⟩))
        (Except.ok (true, 0))).syncProgress := by
  have h := checkClientStatus_progress_bounds 150 100
    (Except.ok (some ⟨150, 100⟩)) (Except.ok (true, 0))
  exact ⟨h.2.1.trans h.2.2.2.2, h.1.1⟩

/-- C8: when the endpoint reports no sync in progress and the staleness check
succeeds but flags the node as not up to date, the health monitor reports
`isWorking = true`, `isSynced = false`, with the non-empty stale-block
message; when the staleness check itself fails, it reports
`isWorking = false` carrying the underlying error. -/
theorem checkClientStatus_stale_results (blockTime : Nat) (e : String) :
    checkClientStatus (Except.ok none) (Except.ok (false, blockTime))
        = { isWorking := true, isSynced := false, syncProgress := 0,
            error := staleBlockMessage blockTime } ∧
    staleBlockMessage blockTime ≠ "" ∧
    checkClientStatus (Except.ok none) (Except.error e)
        = { isWorking := false, isSynced := false, syncProgress := 0,
            error := "Error checking if client sync progress is up to date: [" ++ e ++ "]" } := by
  refine ⟨by simp [checkClientStatus], ?_, by simp [checkClientStatus]⟩
  intro h
  have h2 := congrArg String.data h
  simp [staleBlockMessage, String.data_append] at h2

/-- C8 witness: instantiation at a concrete stale block time and a concrete
staleness-check failure. -/
theorem checkClientStatus_stale_results_witness :
    (checkClientStatus (Except.ok none) (Except.ok (false, 900))).isWorking = true ∧
    (checkClientStatus (Except.ok none) (Except.ok (false, 900))).isSynced = false ∧
    (checkClientStatus (Except.ok none) (Except.ok (false, 900))).error ≠ "" ∧
    (checkClientStatus (Except.ok none) (Except.error "connection reset")).isWorking = false := by
  have h := checkClientStatus_stale_results 900 "connection reset"
  refine ⟨by rw [h.1], by rw [h.1], ?_, by rw [h.2.2]⟩
  rw [h.1]
  exact h.2.1

end Smartnode
